/-
Verification of the iq-report-fetch pipeline (Go sources under internal/).

Shallow embedding:
* internal/report/csvreport.go : `Row`, `csvHeaders`, `WriteCSV` modelled as a
  pure state transformer over a tiny filesystem (`FS`) with per-syscall error
  injection (`WriteEnv`).
* internal/client/client.go : the data structures of the policy violation
  report and `parseReportRows`.
* internal/services/iqreport.go : `GenerateLatestPolicyReport` modelled with
  the network calls replaced by oracles (`AppEnv`, `RunEnv`) and the
  concurrent fan-out sequentialised (per-item outcomes are independent of
  interleaving; arrival order is fixed to dispatch order, which the proved
  properties do not depend on).  The semaphore and the results channel are
  additionally modelled as explicit transition systems for the temporal
  claims.
-/
import Mathlib

namespace IQReport

/-! ## internal/report/csvreport.go -/

/-- `report.Row` (csvreport.go lines 17-28): one policy violation row.
`Threat` is `int` in Go. -/
structure Row where
  Application : String
  Organization : String
  Policy : String
  Format : String
  Component : String
  Threat : Int
  PolicyAction : String
  ConstraintName : String
  Condition : String
  CVE : String
deriving DecidableEq, Repr

/-- `csvHeaders` (csvreport.go lines 33-47): the fixed header row. -/
def csvHeaders : List String :=
  ["No.", "Application", "Organization", "Policy", "Format", "Component",
   "Threat", "Policy/Action", "Constraint Name", "Condition", "CVE"]

/-- The field columns of one data row, in the order of csvreport.go lines
91-100 (everything in the written record except the row number). -/
def rowFields (r : Row) : List String :=
  [r.Application, r.Organization, r.Policy, r.Format, r.Component,
   toString r.Threat, r.PolicyAction, r.ConstraintName, r.Condition, r.CVE]

/-- The record written for row `r` at 0-based index `i`
(csvreport.go lines 89-101): `strconv.Itoa(i+1)` prepended to the fields. -/
def rowRecord (i : Nat) (r : Row) : List String :=
  toString (i + 1) :: rowFields r

/-- The data rows of the artifact, in accumulator order, numbered from 1
(csvreport.go lines 88-105). -/
def renderRows (rows : List Row) : List (List String) :=
  rows.enum.map fun p => rowRecord p.1 p.2

/-- The complete artifact content: header then numbered data rows
(csvreport.go lines 83 and 88-105). -/
def renderCSV (rows : List Row) : List (List String) :=
  csvHeaders :: renderRows rows

/-- Error injection for each fallible syscall inside `WriteCSV`.
`rowWriteFails = some i` makes the `w.Write(record)` of the row at 0-based
index `i` fail (only relevant when `i < rows.length`). -/
structure WriteEnv where
  mkdirFails : Bool
  createTempFails : Bool
  headerWriteFails : Bool
  rowWriteFails : Option Nat
  flushFails : Bool
  syncFails : Bool
  closeFails : Bool
  removeDestFails : Bool
  renameFails : Bool
  chmodFails : Bool
deriving DecidableEq, Repr

/-- The filesystem state `WriteCSV` touches: the file at the destination
path and the temporary file, each `none` when absent, otherwise the parsed
CSV content. -/
structure FS where
  dest : Option (List (List String))
  tmp : Option (List (List String))
deriving DecidableEq, Repr

/-- `WriteCSV` (csvreport.go lines 53-134) as a state transformer.
Returns the Go error (`Except.error` carries the wrapping message prefix)
and the final filesystem.  The deferred cleanup (lines 74-77) closes and
removes the temp file on every return path; `os.Remove(absPath)` at line
121 has its error ignored (modelled by `removeDestFails`); the rename at
line 124 moves the temp file onto the destination. -/
def writeCSVModel (env : WriteEnv) (rows : List Row) (fs : FS) :
    Except String Unit × FS :=
  if env.mkdirFails then (.error "prepare output dir", fs)
  else if env.createTempFails then (.error "create temp file", fs)
  else
    -- temp file exists from here on; the deferred cleanup removes it on
    -- every return below, so every exit state has `tmp := none`.
    if env.headerWriteFails then (.error "write header", { fs with tmp := none })
    else
      let rowFailure : Bool := match env.rowWriteFails with
        | some i => decide (i < rows.length)
        | none => false
      if rowFailure then (.error "write row", { fs with tmp := none })
      else if env.flushFails then (.error "flush csv", { fs with tmp := none })
      else if env.syncFails then (.error "fsync temp", { fs with tmp := none })
      else if env.closeFails then (.error "close temp", { fs with tmp := none })
      else
        -- line 121: _ = os.Remove(absPath)
        let fs1 : FS := if env.removeDestFails then fs else { fs with dest := none }
        if env.renameFails then (.error "atomic rename", { fs1 with tmp := none })
        else
          let fs2 : FS := { dest := some (renderCSV rows), tmp := none }
          if env.chmodFails then (.error "chmod", fs2)
          else (.ok (), fs2)

/-- A `WriteEnv` in which every syscall succeeds. -/
def writeEnvOK : WriteEnv :=
  { mkdirFails := false, createTempFails := false, headerWriteFails := false,
    rowWriteFails := none, flushFails := false, syncFails := false,
    closeFails := false, removeDestFails := false, renameFails := false,
    chmodFails := false }

/-! ## internal/client/client.go -/

/-- `client.Application` (client.go lines 32-36). -/
structure Application where
  id : String
  publicID : String
  organizationID : String
deriving DecidableEq, Repr

/-- `client.Organization` (client.go lines 44-47). -/
structure Organization where
  id : String
  name : String
deriving DecidableEq, Repr

/-- `client.ReportInfo` (client.go lines 55-58). -/
structure ReportInfo where
  stage : String
  reportHTMLURL : String
deriving DecidableEq, Repr

/-- `client.Condition` (client.go lines 65-67). -/
structure Condition where
  conditionSummary : String
deriving DecidableEq, Repr

/-- `client.Constraint` (client.go lines 70-73). -/
structure Constraint where
  constraintName : String
  conditions : List Condition
deriving DecidableEq, Repr

/-- `client.Violation` (client.go lines 76-80).  In Go `policyThreatLevel`
is a `float64` that `parseReportRows` immediately casts to `int`; the model
carries the post-cast integer (float semantics are outside the claims). -/
structure Violation where
  policyName : String
  policyThreatLevel : Int
  constraints : List Constraint
deriving DecidableEq, Repr

/-- `client.ComponentIdentifier` (client.go lines 82-84). -/
structure ComponentIdentifier where
  format : String
deriving DecidableEq, Repr

/-- `client.Component` (client.go lines 87-91). -/
structure Component where
  displayName : String
  violations : List Violation
  componentIdentifier : ComponentIdentifier
deriving DecidableEq, Repr

/-- `client.PolicyViolationReport` (client.go lines 94-96). -/
structure PolicyViolationReport where
  components : List Component
deriving DecidableEq, Repr

/-- `parseReportRows` (client.go lines 263-296): flatten the structured
report into `Row`s.  `fmt.Sprintf("Security-%d", threat)` becomes
`"Security-" ++ toString threat`; `strings.Join(condSummaries, " | ")`
becomes `String.intercalate " | "`. -/
def parseReportRows (rawReport : PolicyViolationReport)
    (appPublicID orgName : String) : List Row :=
  rawReport.components.flatMap fun comp =>
    comp.violations.flatMap fun v =>
      v.constraints.map fun constr =>
        { Application := appPublicID
          Organization := orgName
          Policy := v.policyName
          Format := comp.componentIdentifier.format
          Component := comp.displayName
          Threat := v.policyThreatLevel
          PolicyAction := "Security-" ++ toString v.policyThreatLevel
          ConstraintName := constr.constraintName
          Condition := String.intercalate " | "
            (constr.conditions.map fun c => c.conditionSummary)
          CVE := "" }

/-! ## internal/services/iqreport.go -/

/-- `services.AppReportResult` (iqreport.go lines 34-37): rows plus an
optional error; Go's `error` is modelled as `Option String`. -/
structure AppReportResult where
  rows : List Row
  err : Option String
deriving DecidableEq, Repr

/-- `strings.Cut(s, sep)` for a non-empty separator: splits around the
first occurrence of `sep`, returning (before, after, found). -/
def stringsCut (s sep : String) : String × String × Bool :=
  match s.splitOn sep with
  | [] => (s, "", false)
  | [x] => (x, "", false)
  | x :: rest => (x, String.intercalate sep rest, true)

/-- Oracle for the network calls and the cancellation signal observed by
one application's goroutine (iqreport.go lines 98-172).
`cancelledBeforeAcquire`: the `ctx.Done` arm of the semaphore select at
lines 102-107 fires; `cancelledAfterAcquire`: the `ctx.Err()` check at
line 110 trips.  `latestReportInfo` is the result of
`GetLatestReportInfo` (error, no report, or a report), and
`policyViolations` the HTTP result of `GetPolicyViolations` before
`parseReportRows`. -/
structure AppEnv where
  cancelledBeforeAcquire : Bool
  cancelledAfterAcquire : Bool
  latestReportInfo : Except String (Option ReportInfo)
  policyViolations : Except String PolicyViolationReport
deriving Repr

/-- The body of one application's goroutine after semaphore admission
(iqreport.go lines 114-171), producing the single `AppReportResult` it
sends on the results channel.  `orgIDToName` is the lookup built at lines
74-77; the fallback at lines 149-154 uses the raw organization ID when
the lookup misses. -/
def processApp (orgIDToName : String → Option String) (app : Application)
    (env : AppEnv) : AppReportResult :=
  match env.latestReportInfo with
  | .error e => { rows := [], err := some ("app " ++ app.id ++ ": " ++ e) }
  | .ok none => { rows := [], err := none }
  | .ok (some info) =>
    if info.reportHTMLURL.trim = "" then { rows := [], err := none }
    else
      let c := stringsCut info.reportHTMLURL "/report/"
      if !c.2.2 || c.2.1 = "" then
        { rows := [],
          err := some ("app " ++ app.id ++ ": malformed report URL: " ++
            info.reportHTMLURL) }
      else
        let orgName := match orgIDToName app.organizationID with
          | some n => n
          | none => app.organizationID
        match env.policyViolations with
        | .error e =>
          { rows := [],
            err := some ("app " ++ app.id ++ ": get policy violations: " ++ e) }
        | .ok raw =>
          { rows := parseReportRows raw app.publicID orgName, err := none }

/-- One goroutine including the admission/cancellation prologue
(iqreport.go lines 98-112): `none` when the task exits without delivering
an outcome, together with whether the per-item fetch work was invoked. -/
structure TaskTrace where
  outcome : Option AppReportResult
  workInvoked : Bool
deriving Repr

/-- Run one application's task (iqreport.go lines 98-172).  A task that
observes cancellation at the semaphore select (lines 105-106) or at line
110 returns without invoking the fetch work and sends nothing. -/
def runTask (orgIDToName : String → Option String) (app : Application)
    (env : AppEnv) : TaskTrace :=
  if env.cancelledBeforeAcquire then { outcome := none, workInvoked := false }
  else if env.cancelledAfterAcquire then { outcome := none, workInvoked := false }
  else { outcome := some (processApp orgIDToName app env), workInvoked := true }

/-- The `orgIDToName` map built at iqreport.go lines 74-77; Go map
insertion makes the last organization with a given ID win. -/
def buildOrgMap (orgs : List Organization) : String → Option String :=
  orgs.foldl (fun m org k => if k = org.id then some org.name else m k)
    (fun _ => none)

/-- The stream of outcomes the aggregation loop at lines 186-192 consumes:
one per task that delivered a result, in dispatch order (arrival order in
the real program is an interleaving of these; the proved properties do not
depend on the order). -/
def deliveredResults (orgIDToName : String → Option String)
    (apps : List Application) (envOf : Application → AppEnv) :
    List AppReportResult :=
  apps.filterMap fun a => (runTask orgIDToName a (envOf a)).outcome

/-- The aggregation loop (iqreport.go lines 182-192): partition outcomes
into the row accumulator and the error accumulator. -/
def collect (results : List AppReportResult) : List Row × List String :=
  results.foldl
    (fun acc r =>
      match r.err with
      | some e => (acc.1, acc.2 ++ [e])
      | none => (acc.1 ++ r.rows, acc.2))
    ([], [])

/-- Oracle for one whole run of `GenerateLatestPolicyReport`. -/
structure RunEnv where
  getApplications : Except String (List Application)
  getOrganizations : Except String (List Organization)
  appEnvOf : Application → AppEnv
  writeEnv : WriteEnv
  outputDir : String

/-- `errors.Join` followed by the `fmt.Errorf` wrap at iqreport.go line
208, modelled on message strings (Go's `errors.Join` renders joined
errors newline-separated). -/
def joinErrors (errs : List String) : String :=
  "encountered errors while fetching reports: " ++ String.intercalate "\n" errs

/-- The target path computed at iqreport.go line 198 (`filepath.Join`
modelled as separator concatenation; path cleaning is irrelevant to the
claims). -/
def targetPath (outputDir filename : String) : String :=
  outputDir ++ "/" ++ filename

/-- `GenerateLatestPolicyReport` (iqreport.go lines 48-212).  Returns the
Go pair (path, error) together with the final filesystem and whether
`report.WriteCSV` was invoked. -/
def generateLatestPolicyReport (env : RunEnv) (fs : FS) (filename : String) :
    (String × Option String) × FS × Bool :=
  match env.getApplications with
  | .error e => (("", some ("get applications: " ++ e)), fs, false)
  | .ok apps =>
    if apps.length = 0 then (("", some "no applications found"), fs, false)
    else
      match env.getOrganizations with
      | .error e => (("", some ("get organizations: " ++ e)), fs, false)
      | .ok orgs =>
        let orgIDToName := buildOrgMap orgs
        let results := deliveredResults orgIDToName apps env.appEnvOf
        let acc := collect results
        let target := targetPath env.outputDir filename
        match writeCSVModel env.writeEnv acc.1 fs with
        | (.error e, fs1) => (("", some ("write csv: " ++ e)), fs1, true)
        | (.ok _, fs1) =>
          if acc.2.length > 0 then ((target, some (joinErrors acc.2)), fs1, true)
          else ((target, none), fs1, true)

/-- An `AppEnv` with no cancellation observed. -/
def AppEnv.noCancel (env : AppEnv) : Prop :=
  env.cancelledBeforeAcquire = false ∧ env.cancelledAfterAcquire = false

/-- The "Empty" outcome of the spec: the task found no usable report
(iqreport.go lines 128-135: `GetLatestReportInfo` returned nothing, or a
report whose HTML URL is blank) and so contributes neither rows nor an
error. -/
def taskEmpty (env : AppEnv) : Bool :=
  match env.latestReportInfo with
  | .error _ => false
  | .ok none => true
  | .ok (some info) => decide (info.reportHTMLURL.trim = "")

/-! ## Transition systems for the concurrency claims

The per-item goroutines, the admission semaphore `sem` and the buffered
results channel (iqreport.go lines 85-107 and 168-171) are modelled as
small transition systems; every interleaving of the real scheduler is a
path in these systems. -/

/-- The semaphore capacity: `make(chan struct{}, 10)` at iqreport.go
line 85. -/
def semCapacity : Nat := 10

/-- Scheduler-visible state of the dispatch phase: how many of the
per-item goroutines are before admission (`waiting`, blocked at the
select of lines 102-107), hold a token and run the fetch work
(`active`), or have exited and released their token (`done`). -/
structure SemState where
  waiting : Nat
  active : Nat
  done : Nat
deriving DecidableEq, Repr

/-- One scheduler step of the dispatch phase: a waiting task acquires a
token when the semaphore channel has room (`sem <- struct{}{}` at line
103 succeeds only while fewer than `semCapacity` tokens are held); an
active task finishes and releases its token (the deferred `<-sem` at
line 104); a waiting task observes cancellation and exits without a
token (lines 105-106). -/
inductive SemStep : SemState → SemState → Prop where
  | acquire (s : SemState) : s.active < semCapacity → 0 < s.waiting →
      SemStep s { waiting := s.waiting - 1, active := s.active + 1, done := s.done }
  | finish (s : SemState) : 0 < s.active →
      SemStep s { waiting := s.waiting, active := s.active - 1, done := s.done + 1 }
  | cancelExit (s : SemState) : 0 < s.waiting →
      SemStep s { waiting := s.waiting - 1, active := s.active, done := s.done + 1 }

/-- Initial dispatch state for `n` items: all goroutines before
admission, no token held (lines 92-98). -/
def SemState.init (n : Nat) : SemState :=
  { waiting := n, active := 0, done := 0 }

/-- The results channel capacity: `make(chan AppReportResult, len(apps))`
at iqreport.go line 86. -/
def resultsChanCapacity (apps : List Application) : Nat := apps.length

/-- Scheduler-visible state of the results channel: tasks that have not
yet sent their single outcome (`notSent`), outcomes sitting in the
channel buffer (`buffered`), and outcomes drained by the aggregation
loop (`received`). -/
structure ChanState where
  notSent : Nat
  buffered : Nat
  received : Nat
deriving DecidableEq, Repr

/-- One scheduler step around the results channel: a task sends its
single outcome (lines 121, 131, 141, 160, 169), a task exits without
sending (cancellation), or the aggregation loop at lines 186-192
receives one outcome. -/
inductive ChanStep : ChanState → ChanState → Prop where
  | send (s : ChanState) : 0 < s.notSent →
      ChanStep s { notSent := s.notSent - 1, buffered := s.buffered + 1, received := s.received }
  | skip (s : ChanState) : 0 < s.notSent →
      ChanStep s { notSent := s.notSent - 1, buffered := s.buffered, received := s.received }
  | recv (s : ChanState) : 0 < s.buffered →
      ChanStep s { notSent := s.notSent, buffered := s.buffered - 1, received := s.received + 1 }

/-- Initial channel state for `n` items: every task still to send, empty
buffer. -/
def ChanState.init (n : Nat) : ChanState :=
  { notSent := n, buffered := 0, received := 0 }

/-! ## Concrete sample data used by witnesses and counterexamples -/

/-- A concrete violation row (values shaped like the repository's test
stub). -/
def sampleRow : Row :=
  { Application := "app-public-1", Organization := "personal",
    Policy := "Security-Medium", Format := "pypi",
    Component := "setuptools 80.9.0 (.tar.gz)", Threat := 7,
    PolicyAction := "Security-7",
    ConstraintName := "Medium risk CVSS score",
    Condition := "Security Vulnerability Severity >= 4", CVE := "" }

/-- A concrete application record. -/
def sampleApp : Application :=
  { id := "app-internal-1", publicID := "app-public-1",
    organizationID := "org-1" }

/-- A concrete component with one violation and one constraint. -/
def sampleComponent : Component :=
  { displayName := "setuptools 80.9.0 (.tar.gz)"
    violations :=
      [{ policyName := "Security-Medium", policyThreatLevel := 7,
         constraints :=
           [{ constraintName := "Medium risk CVSS score",
              conditions :=
                [{ conditionSummary :=
                     "Security Vulnerability Severity >= 4" }] }] }]
    componentIdentifier := { format := "pypi" } }

/-- A per-application environment whose report-info fetch fails. -/
def failAppEnv : AppEnv :=
  { cancelledBeforeAcquire := false, cancelledAfterAcquire := false,
    latestReportInfo := .error "HTTP 500",
    policyViolations := .ok { components := [] } }

/-- A per-application environment with a successful fetch of one
component's report. -/
def okAppEnv : AppEnv :=
  { cancelledBeforeAcquire := false, cancelledAfterAcquire := false,
    latestReportInfo :=
      .ok (some { stage := "build",
                  reportHTMLURL := "https://stub/report/rpt-1" }),
    policyViolations := .ok { components := [sampleComponent] } }

/-- A per-application environment whose task observes cancellation at the
semaphore select. -/
def cancelledAppEnv : AppEnv :=
  { cancelledBeforeAcquire := true, cancelledAfterAcquire := false,
    latestReportInfo := .ok none,
    policyViolations := .ok { components := [] } }

/-- A run environment whose listing returns zero applications. -/
def emptyRunEnv : RunEnv :=
  { getApplications := .ok []
    getOrganizations := .ok []
    appEnvOf := fun _ =>
      { cancelledBeforeAcquire := false, cancelledAfterAcquire := false,
        latestReportInfo := .ok none,
        policyViolations := .ok { components := [] } }
    writeEnv := writeEnvOK
    outputDir := "reports_output" }

/-- A run environment with one application whose fetch fails and a fully
working writer. -/
def partialRunEnv : RunEnv :=
  { getApplications := .ok [sampleApp]
    getOrganizations := .ok [{ id := "org-1", name := "personal" }]
    appEnvOf := fun _ => failAppEnv
    writeEnv := writeEnvOK
    outputDir := "reports_output" }

/-- A write environment in which only the final rename fails. -/
def renameFailEnv : WriteEnv := { writeEnvOK with renameFails := true }

/-- A filesystem with a pre-existing destination file. -/
def oldDestFS : FS := { dest := some [["old-report"]], tmp := none }

/-! ## Helper lemmas -/

/-- Unrolling `collect`'s fold: rows come from the error-free outcomes in
arrival order, errors from the failed ones. -/
theorem collect_foldl (rs : List AppReportResult)
    (acc : List Row × List String) :
    rs.foldl
      (fun acc r =>
        match r.err with
        | some e => (acc.1, acc.2 ++ [e])
        | none => (acc.1 ++ r.rows, acc.2)) acc =
    (acc.1 ++ rs.flatMap (fun r =>
        match r.err with
        | some _ => []
        | none => r.rows),
     acc.2 ++ rs.filterMap (fun r => r.err)) := by
  induction rs generalizing acc with
  | nil => simp
  | cons r rs ih => cases hr : r.err <;> simp [hr, ih]

/-- `collect` in closed form. -/
theorem collect_eq (rs : List AppReportResult) :
    collect rs =
      (rs.flatMap (fun r =>
         match r.err with
         | some _ => []
         | none => r.rows),
       rs.filterMap (fun r => r.err)) := by
  simpa using collect_foldl rs ([], [])

/-- Without cancellation every task delivers exactly the outcome of its
body, in dispatch order. -/
theorem deliveredResults_noCancel (m : String → Option String)
    (apps : List Application) (envOf : Application → AppEnv)
    (h : ∀ a ∈ apps, AppEnv.noCancel (envOf a)) :
    deliveredResults m apps envOf =
      apps.map fun a => processApp m a (envOf a) := by
  induction apps with
  | nil => rfl
  | cons a l ih =>
    have ha := h a (List.mem_cons_self a l)
    have hl : ∀ x ∈ l, AppEnv.noCancel (envOf x) :=
      fun x hx => h x (List.mem_cons_of_mem a hx)
    simp only [deliveredResults, List.filterMap_cons] at *
    rw [ih hl]
    simp [runTask, ha.1, ha.2]

/-- An "Empty" task contributes neither rows nor an error. -/
theorem processApp_of_taskEmpty (m : String → Option String)
    (a : Application) (env : AppEnv) (h : taskEmpty env = true) :
    processApp m a env = { rows := [], err := none } := by
  unfold taskEmpty at h
  unfold processApp
  cases henv : env.latestReportInfo with
  | error e => rw [henv] at h; cases h
  | ok oinfo =>
    cases oinfo with
    | none => rfl
    | some info =>
      rw [henv] at h
      simp only [decide_eq_true_eq] at h
      simp [h]

/-- The length of a `filterMap` counts the inputs mapped to `some`. -/
theorem length_filterMap_eq_countP (f : α → Option β) (l : List α) :
    (l.filterMap f).length = l.countP fun x => (f x).isSome := by
  induction l with
  | nil => rfl
  | cons a l ih =>
    cases hf : f a <;> simp [List.filterMap_cons, List.countP_cons, hf, ih]

/-- Splitting a count along a pointwise exclusive-cover of predicates. -/
theorem countP_split (p q r : α → Bool)
    (h : ∀ a, (if p a then 1 else 0) + (if q a then 1 else 0) =
      (if r a then 1 else 0)) (l : List α) :
    l.countP p + l.countP q = l.countP r := by
  induction l with
  | nil => rfl
  | cons a l ih =>
    have ha := h a
    cases hp : p a <;> cases hq : q a <;> cases hr : r a <;>
      simp [hp, hq, hr] at ha <;>
        simp [List.countP_cons, hp, hq, hr, ih] <;> omega

/-! ## Claim theorems -/

/-- C6: for every record sequence the artifact has exactly one data row
per `Row` in accumulator order, each with a prepended sequential row
number starting at 1 (the data row at 0-based index `i` sits at artifact
index `i+1` and carries the number `i+1`); `renderCSV` depends only on
the final accumulator order, so the numbering is independent of arrival
timing. -/
theorem C6_row_numbering (rows : List Row) :
    (renderCSV rows).length = rows.length + 1 ∧
    ∀ i r, rows[i]? = some r →
      (renderCSV rows)[i + 1]? = some (toString (i + 1) :: rowFields r) := by
  constructor
  · simp [renderCSV, renderRows]
  · intro i r h
    simp [renderCSV, renderRows, List.getElem?_enum, h, rowRecord]

/-- C6 witness: the single-row artifact has two rows and its data row is
numbered "1". -/
theorem C6_row_numbering_witness :
    (renderCSV [sampleRow]).length = [sampleRow].length + 1 ∧
    (renderCSV [sampleRow])[0 + 1]? =
      some (toString (0 + 1) :: rowFields sampleRow) :=
  ⟨(C6_row_numbering [sampleRow]).1,
   (C6_row_numbering [sampleRow]).2 0 sampleRow rfl⟩

/-- C10: with every syscall succeeding, `WriteCSV` on the empty record
sequence succeeds and commits an artifact whose sole row is the fixed
11-column header starting with "No.". -/
theorem C10_empty_run_header_only (fs : FS) :
    writeCSVModel writeEnvOK [] fs =
      (.ok (), { dest := some [csvHeaders], tmp := none }) ∧
    csvHeaders.length = 11 ∧ csvHeaders.head? = some "No." :=
  ⟨rfl, rfl, rfl⟩

/-- C4: when the application listing is empty, the run returns an empty
path and an error, the filesystem is untouched and the writer is never
invoked. -/
theorem C4_empty_listing_hard_failure (env : RunEnv) (fs : FS)
    (filename : String) (h : env.getApplications = .ok []) :
    generateLatestPolicyReport env fs filename =
      (("", some "no applications found"), fs, false) := by
  simp [generateLatestPolicyReport, h]

/-- C4 witness: a concrete zero-application run fails hard without
writing. -/
theorem C4_empty_listing_hard_failure_witness :
    generateLatestPolicyReport emptyRunEnv { dest := none, tmp := none }
      "report.csv" =
      (("", some "no applications found"),
       { dest := none, tmp := none }, false) :=
  C4_empty_listing_hard_failure emptyRunEnv { dest := none, tmp := none }
    "report.csv" rfl

/-- C1 counterexample: with a pre-existing destination file, if every
syscall succeeds except the final rename, `WriteCSV` returns the rename
error but the destination is left neither untouched (the pre-existing
file was removed at csvreport.go line 121) nor holding the new artifact:
the claimed disjunction fails at this input. -/
theorem C1_counterexample_rename_failure :
    (writeCSVModel renameFailEnv [] oldDestFS).1 = .error "atomic rename" ∧
    (writeCSVModel renameFailEnv [] oldDestFS).2.dest ≠ oldDestFS.dest ∧
    (writeCSVModel renameFailEnv [] oldDestFS).2.dest ≠ some (renderCSV []) :=
  ⟨rfl, by decide, by decide⟩

/-- C1 (amended): on any return the temporary file is removed; on success
or on a chmod failure the complete new artifact is at the destination; on
any error arising before the destination-removal step (everything except
the rename and chmod errors) the destination is unchanged; when the
rename itself fails the destination is either unchanged (the ignored
removal failed) or absent — not necessarily the untouched old file. -/
theorem C1_amended_writeCSV_atomicity (env : WriteEnv) (rows : List Row)
    (fs : FS) (htmp : fs.tmp = none) :
    ∀ res fs2, writeCSVModel env rows fs = (res, fs2) →
      fs2.tmp = none ∧
      (res = .ok () → fs2.dest = some (renderCSV rows)) ∧
      (res = .error "chmod" → fs2.dest = some (renderCSV rows)) ∧
      (∀ e, res = .error e → e ≠ "atomic rename" → e ≠ "chmod" →
        fs2.dest = fs.dest) ∧
      (res = .error "atomic rename" → fs2.dest = fs.dest ∨ fs2.dest = none) := by
  intro res fs2 h
  simp only [writeCSVModel] at h
  split_ifs at h <;>
    · injection h with h1 h2
      subst h1; subst h2
      refine ⟨by simp [htmp], ?_, ?_, ?_, ?_⟩ <;> intros <;> simp_all

/-- C1 (amended) witness: at the all-success environment on one concrete
row the amended guarantees hold, in particular the artifact is committed. -/
theorem C1_amended_writeCSV_atomicity_witness :
    (writeCSVModel writeEnvOK [sampleRow] oldDestFS).1 = .ok () ∧
    (writeCSVModel writeEnvOK [sampleRow] oldDestFS).2.dest =
      some (renderCSV [sampleRow]) :=
  ⟨rfl, (C1_amended_writeCSV_atomicity writeEnvOK [sampleRow] oldDestFS rfl
    (writeCSVModel writeEnvOK [sampleRow] oldDestFS).1
    (writeCSVModel writeEnvOK [sampleRow] oldDestFS).2 rfl).2.1 rfl⟩

/-- C2: whenever the run reaches the write with at least one per-item
failure collected and the CSV write succeeds, the output path is returned
together with exactly one aggregate error joining all per-item failure
causes; no per-item error is propagated individually and none prevents
the path from being returned. -/
theorem C2_partial_success_aggregate_error (env : RunEnv) (fs : FS)
    (filename : String) (apps : List Application) (orgs : List Organization)
    (happs : env.getApplications = .ok apps) (hne : apps ≠ [])
    (horgs : env.getOrganizations = .ok orgs)
    (herr : (collect (deliveredResults (buildOrgMap orgs) apps
      env.appEnvOf)).2 ≠ [])
    (hw : (writeCSVModel env.writeEnv
      (collect (deliveredResults (buildOrgMap orgs) apps env.appEnvOf)).1
      fs).1 = .ok ()) :
    (generateLatestPolicyReport env fs filename).1 =
      (targetPath env.outputDir filename,
       some (joinErrors (collect (deliveredResults (buildOrgMap orgs) apps
         env.appEnvOf)).2)) := by
  have hlen : ¬apps.length = 0 := by
    simpa [List.length_eq_zero] using hne
  have hpos : 0 < (collect (deliveredResults (buildOrgMap orgs) apps
      env.appEnvOf)).2.length := List.length_pos.mpr herr
  simp only [generateLatestPolicyReport, happs, horgs]
  rw [if_neg hlen]
  rcases hww : writeCSVModel env.writeEnv
      (collect (deliveredResults (buildOrgMap orgs) apps env.appEnvOf)).1 fs
    with ⟨r1, fs1⟩
  rw [hww] at hw
  simp only at hw
  subst hw
  simp [hww, hpos]

/-- C2 witness: one application whose fetch fails with a working writer
yields the output path plus the single aggregate error. -/
theorem C2_partial_success_aggregate_error_witness :
    (generateLatestPolicyReport partialRunEnv { dest := none, tmp := none }
      "report.csv").1 =
      ("reports_output/report.csv",
       some (joinErrors ["app app-internal-1: HTTP 500"])) :=
  C2_partial_success_aggregate_error partialRunEnv
    { dest := none, tmp := none } "report.csv" [sampleApp]
    [{ id := "org-1", name := "personal" }] rfl (by decide) rfl
    (by decide) rfl

/-- C3: without cancellation every dispatched item delivers exactly one
outcome to the collector (one per item, in dispatch order), the failure
accumulator holds exactly one entry per failing item, and the failing
items together with the succeeding ones cover exactly the items that are
not "Empty". -/
theorem C3_outcome_completeness (m : String → Option String)
    (apps : List Application) (envOf : Application → AppEnv)
    (h : ∀ a ∈ apps, AppEnv.noCancel (envOf a)) :
    (deliveredResults m apps envOf).length = apps.length ∧
    (collect (deliveredResults m apps envOf)).2.length =
      apps.countP (fun a => (processApp m a (envOf a)).err.isSome) ∧
    apps.countP (fun a => (processApp m a (envOf a)).err.isSome) +
      apps.countP (fun a =>
        !(processApp m a (envOf a)).err.isSome && !taskEmpty (envOf a)) =
    apps.countP (fun a => !taskEmpty (envOf a)) := by
  have hdel := deliveredResults_noCancel m apps envOf h
  refine ⟨by rw [hdel]; exact List.length_map .., ?_, ?_⟩
  · rw [hdel, collect_eq]
    simp only [List.filterMap_map]
    exact length_filterMap_eq_countP _ apps
  · refine countP_split _ _ _ (fun a => ?_) apps
    by_cases he : taskEmpty (envOf a) = true
    · have := processApp_of_taskEmpty m a (envOf a) he
      simp [this, he]
    · have he' : taskEmpty (envOf a) = false := by
        simpa using he
      cases hs : (processApp m a (envOf a)).err.isSome <;> simp [hs, he']

/-- C3 witness: two items, one failing and one empty, deliver two
outcomes; failures plus successes (1 + 0) cover the single non-empty
item. -/
theorem C3_outcome_completeness_witness :
    (deliveredResults (fun _ => none) [sampleApp] (fun _ => failAppEnv)).length
      = [sampleApp].length ∧
    (collect (deliveredResults (fun _ => none) [sampleApp]
      (fun _ => failAppEnv))).2.length =
      [sampleApp].countP (fun a =>
        (processApp (fun _ => none) a failAppEnv).err.isSome) ∧
    [sampleApp].countP (fun a =>
        (processApp (fun _ => none) a failAppEnv).err.isSome) +
      [sampleApp].countP (fun a =>
        !(processApp (fun _ => none) a failAppEnv).err.isSome &&
          !taskEmpty failAppEnv) =
    [sampleApp].countP (fun _ => !taskEmpty failAppEnv) :=
  C3_outcome_completeness (fun _ => none) [sampleApp] (fun _ => failAppEnv)
    (fun _ _ => ⟨rfl, rfl⟩)

/-- C7: a task that observes cancellation before acquiring an admission
token never invokes the fetch work and delivers no outcome: removing the
item from the dispatched list changes neither the delivered outcome
stream nor the success/failure accumulators. -/
theorem C7_cancelled_task_contributes_nothing (m : String → Option String)
    (pre post : List Application) (a : Application)
    (envOf : Application → AppEnv)
    (h : (envOf a).cancelledBeforeAcquire = true) :
    (runTask m a (envOf a)).workInvoked = false ∧
    (runTask m a (envOf a)).outcome = none ∧
    deliveredResults m (pre ++ a :: post) envOf =
      deliveredResults m (pre ++ post) envOf ∧
    collect (deliveredResults m (pre ++ a :: post) envOf) =
      collect (deliveredResults m (pre ++ post) envOf) := by
  have h1 : (runTask m a (envOf a)).workInvoked = false := by
    simp [runTask, h]
  have h2 : (runTask m a (envOf a)).outcome = none := by
    simp [runTask, h]
  have h3 : deliveredResults m (pre ++ a :: post) envOf =
      deliveredResults m (pre ++ post) envOf := by
    simp [deliveredResults, List.filterMap_append, List.filterMap_cons, h2]
  exact ⟨h1, h2, h3, congrArg collect h3⟩

/-- C7 witness: with one successful neighbour, the cancelled item changes
nothing about the delivered results or the accumulators. -/
theorem C7_cancelled_task_contributes_nothing_witness :
    (runTask (fun _ => none) sampleApp
      ((fun _ => cancelledAppEnv) sampleApp)).workInvoked = false ∧
    (runTask (fun _ => none) sampleApp
      ((fun _ => cancelledAppEnv) sampleApp)).outcome = none ∧
    deliveredResults (fun _ => none) ([] ++ sampleApp :: [])
      (fun _ => cancelledAppEnv) =
      deliveredResults (fun _ => none) ([] ++ [])
        (fun _ => cancelledAppEnv) ∧
    collect (deliveredResults (fun _ => none) ([] ++ sampleApp :: [])
      (fun _ => cancelledAppEnv)) =
      collect (deliveredResults (fun _ => none) ([] ++ [])
        (fun _ => cancelledAppEnv)) :=
  C7_cancelled_task_contributes_nothing (fun _ => none) [] [] sampleApp
    (fun _ => cancelledAppEnv) rfl

/-- Changing the organization name passed to `parseReportRows` changes
exactly the `Organization` field of every produced row. -/
theorem parseReportRows_map_org (raw : PolicyViolationReport)
    (pub o oAlt : String) :
    parseReportRows raw pub o =
      (parseReportRows raw pub oAlt).map fun r =>
        { r with Organization := o } := by
  simp only [parseReportRows, List.map_flatMap, List.map_map]
  exact rfl

/-- Every row produced by `parseReportRows` carries the given
organization name. -/
theorem parseReportRows_org_mem (raw : PolicyViolationReport)
    (pub o : String) : ∀ r ∈ parseReportRows raw pub o,
      r.Organization = o := by
  intro r hr
  simp only [parseReportRows, List.mem_flatMap, List.mem_map] at hr
  obtain ⟨comp, _, v, _, constr, _, rfl⟩ := hr
  rfl

/-- C9: when the organization lookup has no entry for the application's
`OrganizationID`, the task's error status is exactly what it would be
under any other lookup (the miss never produces a failure), and the
produced rows are the same rows with the raw `OrganizationID` string as
the organization name — no other field is affected. -/
theorem C9_org_lookup_fallback (m mAlt : String → Option String)
    (a : Application) (env : AppEnv) (h : m a.organizationID = none) :
    (processApp m a env).err = (processApp mAlt a env).err ∧
    (processApp m a env).rows =
      ((processApp mAlt a env).rows).map (fun r =>
        { r with Organization := a.organizationID }) ∧
    ∀ r ∈ (processApp m a env).rows,
      r.Organization = a.organizationID := by
  unfold processApp
  cases henv : env.latestReportInfo with
  | error e => exact ⟨rfl, by simp, by simp⟩
  | ok oinfo =>
    cases oinfo with
    | none => exact ⟨rfl, by simp, by simp⟩
    | some info =>
      by_cases hts : info.reportHTMLURL.trim = ""
      · simp [hts]
      · simp only [hts, if_false, reduceIte]
        by_cases hcut : (!(stringsCut info.reportHTMLURL "/report/").2.2 ||
            (stringsCut info.reportHTMLURL "/report/").2.1 = "") = true
        · simp [hcut]
        · simp only [hcut, if_false, Bool.false_eq_true, reduceIte]
          rw [h]
          cases hpv : env.policyViolations with
          | error e => exact ⟨rfl, by simp, by simp⟩
          | ok raw =>
            refine ⟨?_, ?_, ?_⟩
            · cases hm : mAlt a.organizationID <;> simp
            · cases hm : mAlt a.organizationID with
              | none => exact parseReportRows_map_org raw a.publicID _ _
              | some n => exact parseReportRows_map_org raw a.publicID _ _
            · exact parseReportRows_org_mem raw a.publicID _

/-- C9 witness: with an empty lookup and one fetched component, the task
succeeds and its row carries the raw organization ID "org-1". -/
theorem C9_org_lookup_fallback_witness :
    (processApp (fun _ => none) sampleApp okAppEnv).err =
      (processApp (fun _ => some "personal") sampleApp okAppEnv).err ∧
    (processApp (fun _ => none) sampleApp okAppEnv).rows =
      ((processApp (fun _ => some "personal") sampleApp okAppEnv).rows).map
        (fun r => { r with Organization := sampleApp.organizationID }) ∧
    ∀ r ∈ (processApp (fun _ => none) sampleApp okAppEnv).rows,
      r.Organization = sampleApp.organizationID :=
  C9_org_lookup_fallback (fun _ => none) (fun _ => some "personal")
    sampleApp okAppEnv rfl

/-- C5: in every state reachable from the start of a run over any number
of items, at most 10 tasks hold an admission token — so at most 10
per-item fetch operations execute simultaneously, admission being gated
by the fixed-capacity-10 semaphore channel. -/
theorem C5_concurrency_bound (n : Nat) (s : SemState)
    (h : Relation.ReflTransGen SemStep (SemState.init n) s) :
    s.active ≤ 10 ∧ semCapacity = 10 := by
  refine ⟨?_, rfl⟩
  induction h with
  | refl => exact Nat.zero_le 10
  | tail hab hbc ih =>
    cases hbc with
    | acquire hlt hw => exact hlt
    | finish hpos => exact le_trans (Nat.sub_le _ _) ih
    | cancelExit hw => exact ih

/-- C5 witness: after one admission step from a two-item run, one task is
active — within the bound. -/
theorem C5_concurrency_bound_witness :
    ({ waiting := 1, active := 1, done := 0 } : SemState).active ≤ 10 ∧
    semCapacity = 10 :=
  C5_concurrency_bound 2 { waiting := 1, active := 1, done := 0 }
    (Relation.ReflTransGen.single
      (SemStep.acquire (SemState.init 2) (by decide) (by decide)))

/-- Invariant of the results-channel system: the tasks still to send, the
buffered outcomes and the received outcomes never total more than the
number of items. -/
theorem chan_invariant (n : Nat) (s : ChanState)
    (h : Relation.ReflTransGen ChanStep (ChanState.init n) s) :
    s.notSent + s.buffered + s.received ≤ n := by
  induction h with
  | refl => simp [ChanState.init]
  | tail hab hbc ih =>
    cases hbc with
    | send hpos => dsimp only at *; omega
    | skip hpos => dsimp only at *; omega
    | recv hpos => dsimp only at *; omega

/-- C8: the results channel is created with buffer capacity exactly the
number of items, and in every reachable state in which some task has yet
to send, the buffer is strictly below that capacity — a producer sending
its single outcome never finds the buffer full and never blocks on the
consumer. -/
theorem C8_channel_capacity_nonblocking (apps : List Application)
    (s : ChanState)
    (h : Relation.ReflTransGen ChanStep
      (ChanState.init (resultsChanCapacity apps)) s)
    (hs : 0 < s.notSent) :
    resultsChanCapacity apps = apps.length ∧
    s.buffered < resultsChanCapacity apps := by
  have hinv := chan_invariant (resultsChanCapacity apps) s h
  exact ⟨rfl, by omega⟩

/-- C8 witness: at the start of a one-item run a sender finds the buffer
(empty) strictly below the capacity 1. -/
theorem C8_channel_capacity_nonblocking_witness :
    resultsChanCapacity [sampleApp] = [sampleApp].length ∧
    (ChanState.init (resultsChanCapacity [sampleApp])).buffered <
      resultsChanCapacity [sampleApp] :=
  C8_channel_capacity_nonblocking [sampleApp]
    (ChanState.init (resultsChanCapacity [sampleApp]))
    Relation.ReflTransGen.refl (by decide)

end IQReport
